import Mathlib

/-!
Shallow embedding of the rec_to_nwb video-timestamp extractor
(`fl_video_files_extractor.py`) and the raw-to-NWB build orchestrator
(`raw_to_nwb_builder.py`), with theorems checking the specification's
claims against the code.
-/

namespace RecToNwb

/-- The Python exceptions that the embedded code can raise. -/
inductive PyErr where
  | fileNotFoundError
  | typeError
  | keyError
  | unboundLocalError
deriving DecidableEq, Repr

/-- Python values flowing through the extractor: strings (paths), numeric
arrays (numpy arrays of timestamps, as exact rationals), and dictionaries
(the structured records returned by the file reader). -/
inductive PyVal where
  | str : String → PyVal
  | arr : List ℚ → PyVal
  | dict : List (String × PyVal) → PyVal

/-- Python subscripting `v[key]` with a string key: a dict lookup succeeds or
raises KeyError; subscripting a string or an array with a string key raises
TypeError (as `"..."['data']` does in Python). -/
def subscript : PyVal → String → Except PyErr PyVal
  | .dict entries, key =>
    match entries.lookup key with
    | some v => .ok v
    | none => .error .keyError
  | _, _ => .error .typeError

/-- One on-disk Trodes extracted data file: its `data` record maps field
names (such as HWTimestamp or frameCount) to numeric arrays. -/
structure TrodesFile where
  data : List (String × List ℚ)

/-- The raw-data directory contents: existing file paths with their parsed
contents. -/
def FileSystem : Type := List (String × TrodesFile)

/-- Modelled from the spec: the external reader `readTrodesExtractedDataFile`
of the rec_to_binaries package. Per the spec's external-interface section it
takes a path, returns a structured record with a `data` mapping field, and
raises a distinguishable not-found condition when the path does not exist.
Calling it with a non-string argument is a type error. -/
def readTrodesExtractedDataFile (fs : FileSystem) : PyVal → Except PyErr PyVal
  | .str p =>
    match fs.lookup p with
    | some tf => .ok (.dict [("data", .dict (tf.data.map fun kv => (kv.1, PyVal.arr kv.2)))])
    | none => .error .fileNotFoundError
  | _ => .error .typeError

/-- `os.path.join` for a relative second component on a posix system. -/
def os_path_join (a b : String) : String := a ++ "/" ++ b

/-- One entry of `video_files_metadata`: the fields the extractor reads. -/
structure VideoFileMeta where
  name : String
  camera_id : ℕ
deriving DecidableEq, Repr

/-- The state set up by `FlVideoFilesExtractor.__init__`. -/
structure FlVideoFilesExtractor where
  raw_data_path : String
  video_files_metadata : List VideoFileMeta
  convert_timestamps : Bool := true
  return_timestamps : Bool := true

/-- `NANOSECONDS_PER_SECOND = 1E9`. -/
def NANOSECONDS_PER_SECOND : ℚ := 1000000000

/-- `FlVideoFilesExtractor._read_video_timestamps_hw_sync`, exactly as the
source parenthesizes it: the subscripts `['data']['HWTimestamp']` are applied
to the string returned by `os.path.join`, inside the argument of
`readTrodesExtractedDataFile`; Python evaluates the argument first, so the
subscripts run before the reader is called. -/
def read_video_timestamps_hw_sync (fs : FileSystem) (self : FlVideoFilesExtractor)
    (video_file : VideoFileMeta) : Except PyErr PyVal :=
  (subscript
      (.str (os_path_join self.raw_data_path
        (video_file.name.dropRight 4 ++ "videoTimeStamps.cameraHWSync"))) "data").bind
    fun v => (subscript v "HWTimestamp").bind
      fun arg => readTrodesExtractedDataFile fs arg

/-- `FlVideoFilesExtractor._read_video_timestamps_hw_framecount`: same
misplaced-subscript shape as the hardware-sync reader, with the
`cameraHWFrameCount` suffix and the `frameCount` field. -/
def read_video_timestamps_hw_framecount (fs : FileSystem) (self : FlVideoFilesExtractor)
    (video_file : VideoFileMeta) : Except PyErr PyVal :=
  (subscript
      (.str (os_path_join self.raw_data_path
        (video_file.name.dropRight 4 ++ "videoTimeStamps.cameraHWFrameCount"))) "data").bind
    fun v => (subscript v "frameCount").bind
      fun arg => readTrodesExtractedDataFile fs arg

/-- `FlVideoFilesExtractor._convert_timestamps`: `timestamps / 1E9`.
Dividing a numpy array rescales every element; dividing a string or a dict
by a float is a Python type error. -/
def convertTimestamps : PyVal → Except PyErr PyVal
  | .arr xs => .ok (.arr (xs.map fun t => t / NANOSECONDS_PER_SECOND))
  | _ => .error .typeError

/-- The control flow of `FlVideoFilesExtractor._get_timestamps` as a function
of the two reader outcomes: `try` the hardware-sync result; `except
FileNotFoundError` fall back to the frame-count result with
`is_old_dataset = True`; any other error propagates; finally convert only
when the dataset is not old and `convert_timestamps` is set. -/
def get_timestampsWith (hw fc : Except PyErr PyVal) (convert_timestamps : Bool) :
    Except PyErr PyVal :=
  match hw with
  | .ok ts => if convert_timestamps then convertTimestamps ts else .ok ts
  | .error .fileNotFoundError =>
    match fc with
    | .ok ts => .ok ts
    | .error e => .error e
  | .error e => .error e

/-- `FlVideoFilesExtractor._get_timestamps`. -/
def get_timestamps (fs : FileSystem) (self : FlVideoFilesExtractor)
    (video_file : VideoFileMeta) : Except PyErr PyVal :=
  get_timestampsWith (read_video_timestamps_hw_sync fs self video_file)
    (read_video_timestamps_hw_framecount fs self video_file) self.convert_timestamps

/-- One record appended by `extract_video_files`. -/
structure FlVideoFile where
  name : String
  timestamps : PyVal
  device : ℕ

/-- The loop body of `FlVideoFilesExtractor.extract_video_files` over the
remaining metadata entries: per entry, timestamps via `_get_timestamps` when
`return_timestamps` is set, else `np.array([])`; an exception raised for one
entry propagates before later entries are processed. -/
def extract_video_files_loop (fs : FileSystem) (self : FlVideoFilesExtractor) :
    List VideoFileMeta → Except PyErr (List FlVideoFile)
  | [] => .ok []
  | vf :: rest =>
    (if self.return_timestamps then get_timestamps fs self vf else .ok (.arr [])).bind
      fun ts => (extract_video_files_loop fs self rest).bind
        fun others => .ok ({ name := vf.name, timestamps := ts, device := vf.camera_id } :: others)

/-- `FlVideoFilesExtractor.extract_video_files`. -/
def extract_video_files (fs : FileSystem) (self : FlVideoFilesExtractor) :
    Except PyErr (List FlVideoFile) :=
  extract_video_files_loop fs self self.video_files_metadata

/-- Concrete raw-data directory holding a hardware-sync timestamp file for
stream stem camA, with HWTimestamp in unix epoch nanoseconds. -/
def fsHWSync : FileSystem :=
  [("data/camAvideoTimeStamps.cameraHWSync",
    ⟨[("HWTimestamp", [1000000000, 2000000000])]⟩)]

/-- Concrete raw-data directory holding only a frame-count file for stream
stem camA (legacy dataset: no hardware-sync file). -/
def fsFrameCount : FileSystem :=
  [("data/camAvideoTimeStamps.cameraHWFrameCount", ⟨[("frameCount", [0, 1, 2])]⟩)]

/-- An extractor over raw-data path `data` with one declared video stream
named camA.mp4 on camera 7, timestamp retrieval on, and the given
conversion flag. -/
def extractorCamA (convert : Bool) : FlVideoFilesExtractor :=
  { raw_data_path := "data"
    video_files_metadata := [{ name := "camA.mp4", camera_id := 7 }]
    convert_timestamps := convert
    return_timestamps := true }

/-- An extractor like `extractorCamA` but with timestamp retrieval turned
off (`return_timestamps = False`). -/
def extractorCamAOff : FlVideoFilesExtractor :=
  { raw_data_path := "data"
    video_files_metadata := [{ name := "camA.mp4", camera_id := 7 }]
    convert_timestamps := true
    return_timestamps := false }

/-! ## The build orchestrator (`raw_to_nwb_builder.py`) -/

/-- The observable steps of `RawToNWBBuilder.build_nwb`: the one
`__preprocess_data` call (which runs `extract_trodes_rec_file`), and per
date the `NWBFileBuilder.build` call and the `write` call with the content
that build returned. -/
inductive BuildEvent where
  | preprocess
  | build (date : String)
  | write (date : String) (content : ℕ)
deriving DecidableEq, Repr

/-- Modelled from the spec: the external `NWBFileBuilder.build` step is a
collaborator outside this core; only which content object it hands back per
date matters to the orchestrator, so it is an abstract map from date to
content. -/
structure NWBEnv where
  buildResult : String → ℕ

/-- The state set up by `RawToNWBBuilder.__init__` (defaults as in the
source). -/
structure RawToNWBBuilder where
  data_path : String
  animal_name : String
  dates : List String
  output_path : String := ""
  extract_analog : Bool := false
  extract_spikes : Bool := false
  extract_lfps : Bool := false
  extract_dio : Bool := true
  extract_time : Bool := true
  extract_mda : Bool := true
  parallel_instances : ℕ := 4

/-- The `for date in self.dates` loop of `build_nwb`: per date one builder
build followed at once by its write; the local `content` holds the content
most recently assigned (none when the loop body never ran). -/
def build_nwb_loop (env : NWBEnv) :
    List String → Option ℕ → List BuildEvent × Option ℕ
  | [], content => ([], content)
  | date :: rest, _ =>
    let content := env.buildResult date
    let next := build_nwb_loop env rest (some content)
    (.build date :: .write date content :: next.1, next.2)

/-- `RawToNWBBuilder.build_nwb`: preprocess once, run the per-date loop,
then `return content` — which raises UnboundLocalError when the loop never
assigned `content`. Returns the emitted event trace and the outcome. -/
def build_nwb (env : NWBEnv) (self : RawToNWBBuilder) :
    List BuildEvent × Except PyErr ℕ :=
  (.preprocess :: (build_nwb_loop env self.dates none).1,
    match (build_nwb_loop env self.dates none).2 with
    | some c => .ok c
    | none => .error .unboundLocalError)

/-- The path string `self.data_path + '/' + self.animal_name +
'/preprocessing'` computed by `RawToNWBBuilder.cleanup`. -/
def preprocessing_dir (self : RawToNWBBuilder) : String :=
  self.data_path ++ "/" ++ self.animal_name ++ "/preprocessing"

/-- `os.path.exists` over a filesystem modelled as the list of existing
paths. -/
def os_path_exists (p : String) (fsys : List String) : Bool := fsys.contains p

/-- `shutil.rmtree`: removes the path and everything below it; raises
FileNotFoundError when the path does not exist. -/
def shutil_rmtree (p : String) (fsys : List String) : Except PyErr (List String) :=
  if fsys.contains p then
    .ok (fsys.filter fun f => !(f == p || f.startsWith (p ++ "/")))
  else .error .fileNotFoundError

/-- `RawToNWBBuilder.cleanup`: remove the preprocessing working directory if
it exists, else do nothing. -/
def cleanup (self : RawToNWBBuilder) (fsys : List String) : Except PyErr (List String) :=
  if os_path_exists (preprocessing_dir self) fsys then
    shutil_rmtree (preprocessing_dir self) fsys
  else .ok fsys

/-! ## Theorems -/

/-- Helper: with `return_timestamps` off, the extraction loop produces one
record per entry with empty timestamps, touching no file. -/
theorem extract_loop_disabled (fs : FileSystem) (self : FlVideoFilesExtractor)
    (h : self.return_timestamps = false) :
    ∀ l, extract_video_files_loop fs self l =
      .ok (l.map fun vf => { name := vf.name, timestamps := PyVal.arr [], device := vf.camera_id })
  | [] => rfl
  | vf :: rest => by
    simp [extract_video_files_loop, h, extract_loop_disabled fs self h rest, Except.bind]

/-- Helper: whenever the extraction loop succeeds, the records carry the
input names and camera ids in input order. -/
theorem extract_loop_fields (fs : FileSystem) (self : FlVideoFilesExtractor) :
    ∀ (l : List VideoFileMeta) (recs : List FlVideoFile),
      extract_video_files_loop fs self l = .ok recs →
      recs.map (fun r => (r.name, r.device)) = l.map fun vf => (vf.name, vf.camera_id)
  | [], recs => by
    intro h
    simp [extract_video_files_loop] at h
    simp [← h]
  | vf :: rest, recs => by
    intro h
    rw [extract_video_files_loop] at h
    cases hts : (if self.return_timestamps then get_timestamps fs self vf else .ok (.arr [])) with
    | error e => rw [hts] at h; exact absurd h (by simp [Except.bind])
    | ok ts =>
      rw [hts] at h
      cases hrest : extract_video_files_loop fs self rest with
      | error e => rw [hrest] at h; exact absurd h (by simp [Except.bind])
      | ok others =>
        rw [hrest] at h
        simp [Except.bind] at h
        subst h
        simp [extract_loop_fields fs self rest others hrest]

/-- Helper: the per-date loop emits exactly one build event followed by one
write event per date, in input order. -/
theorem build_nwb_loop_trace (env : NWBEnv) :
    ∀ (dates : List String) (acc : Option ℕ),
      (build_nwb_loop env dates acc).1 =
        (dates.map fun d => [BuildEvent.build d, BuildEvent.write d (env.buildResult d)]).flatten
  | [], _ => rfl
  | d :: rest, _ => by
    simp [build_nwb_loop, build_nwb_loop_trace env rest (some (env.buildResult d))]

/-- Helper: the per-date loop never emits a preprocess event. -/
theorem build_nwb_loop_no_preprocess (env : NWBEnv) :
    ∀ (dates : List String) (acc : Option ℕ),
      BuildEvent.preprocess ∉ (build_nwb_loop env dates acc).1
  | [], _ => by simp [build_nwb_loop]
  | d :: rest, _ => by
    simp [build_nwb_loop]
    exact build_nwb_loop_no_preprocess env rest (some (env.buildResult d))

/-- Helper: when the dates list has a last element, the loop leaves its
content in the loop variable. -/
theorem build_nwb_loop_last (env : NWBEnv) :
    ∀ (dates : List String) (acc : Option ℕ) (d : String),
      dates.getLast? = some d →
      (build_nwb_loop env dates acc).2 = some (env.buildResult d)
  | [], _, d => by intro h; simp at h
  | [d0], _, d => by
    intro h
    simp at h
    subst h
    rfl
  | d0 :: d1 :: rest, acc, d => by
    intro h
    rw [List.getLast?_cons_cons] at h
    simpa [build_nwb_loop] using
      build_nwb_loop_last env (d1 :: rest) (some (env.buildResult d0)) d h

/-- C1: the claim expects that, with the hardware-sync file on disk, extract
returns its HWTimestamp values divided by 10^9 (conversion on) or raw
(conversion off). The code instead raises TypeError for both flag values,
because the subscripts land on the path string: this theorem evaluates the
code at the failing input, with the hardware-sync file present at exactly
the path the reader targets. -/
theorem hw_sync_present_extract_raises_type_error :
    (fsHWSync.lookup (os_path_join "data"
      ("camA.mp4".dropRight 4 ++ "videoTimeStamps.cameraHWSync"))).isSome = true ∧
    extract_video_files fsHWSync (extractorCamA true) = .error .typeError ∧
    extract_video_files fsHWSync (extractorCamA false) = .error .typeError :=
  ⟨rfl, rfl, rfl⟩

/-- C2: the claim expects that, with only the frame-count file on disk,
extract returns its frameCount values unmodified for both conversion flag
values. The code instead raises TypeError for both flag values: the
hardware-sync read raises TypeError (not FileNotFoundError) before probing
the disk, so the frame-count fallback is never reached. This theorem
evaluates the code at the failing input, with the frame-count file present
and the hardware-sync file absent. -/
theorem framecount_only_extract_raises_type_error :
    (fsFrameCount.lookup (os_path_join "data"
      ("camA.mp4".dropRight 4 ++ "videoTimeStamps.cameraHWFrameCount"))).isSome = true ∧
    fsFrameCount.lookup (os_path_join "data"
      ("camA.mp4".dropRight 4 ++ "videoTimeStamps.cameraHWSync")) = none ∧
    extract_video_files fsFrameCount (extractorCamA true) = .error .typeError ∧
    extract_video_files fsFrameCount (extractorCamA false) = .error .typeError :=
  ⟨rfl, rfl, rfl, rfl⟩

/-- C3: for every filesystem, extractor state and stream, the hardware-sync
read raises TypeError (the subscripts apply to the joined path string before
the reader runs, so the result does not depend on the filesystem), the
frame-count read has the same shape, and `_get_timestamps` propagates the
TypeError — its FileNotFoundError handler does not catch it, so the
frame-count fallback branch is unreachable. -/
theorem hw_sync_subscripts_join_string (fs : FileSystem) (self : FlVideoFilesExtractor)
    (vf : VideoFileMeta) :
    read_video_timestamps_hw_sync fs self vf = .error .typeError ∧
    read_video_timestamps_hw_framecount fs self vf = .error .typeError ∧
    get_timestamps fs self vf = .error .typeError :=
  ⟨rfl, rfl, rfl⟩

/-- C4: in `_get_timestamps`, a hardware-sync failure other than
FileNotFoundError propagates to the caller uncaught, and on a
FileNotFoundError the outcome is exactly the frame-count read's outcome —
its value unconverted on success (whatever the conversion flag), its error
propagated on failure, with no third fallback. -/
theorem get_timestamps_fallback_only_on_missing_file
    (e : PyErr) (fc : Except PyErr PyVal) (cv : Bool)
    (h : e ≠ PyErr.fileNotFoundError) :
    get_timestampsWith (.error e) fc cv = .error e ∧
    get_timestampsWith (.error .fileNotFoundError) fc cv = fc := by
  constructor
  · cases e
    · exact absurd rfl h
    · rfl
    · rfl
    · rfl
  · cases fc <;> rfl

/-- C4 witness: a TypeError from the hardware-sync read propagates even when
the frame-count read would succeed, and a FileNotFoundError falls back to
the frame-count result. -/
theorem get_timestamps_fallback_witness :
    get_timestampsWith (.error .typeError) (.ok (.arr [5])) true = .error .typeError ∧
    get_timestampsWith (.error .fileNotFoundError) (.ok (.arr [5])) true = .ok (.arr [5]) :=
  get_timestamps_fallback_only_on_missing_file .typeError (.ok (.arr [5])) true (by decide)

/-- C5: `build_nwb` emits exactly one preprocess event, before any date is
processed, and then — for the dates in input order — one container build
event immediately followed by the write event for that build's content. -/
theorem build_nwb_preprocess_once_then_pairs (env : NWBEnv) (self : RawToNWBBuilder) :
    (build_nwb env self).1 =
      BuildEvent.preprocess ::
        (self.dates.map fun d =>
          [BuildEvent.build d, BuildEvent.write d (env.buildResult d)]).flatten ∧
    (build_nwb env self).1.count BuildEvent.preprocess = 1 := by
  constructor
  · simp [build_nwb, build_nwb_loop_trace env self.dates none]
  · simp [build_nwb, List.count_cons_self]
    exact List.count_eq_zero.mpr (build_nwb_loop_no_preprocess env self.dates none)

/-- C6: for a non-empty dates list, `build_nwb` returns the content object
the container build produced for the last date; earlier contents are not
returned. -/
theorem build_nwb_returns_last (env : NWBEnv) (self : RawToNWBBuilder) (d : String)
    (h : self.dates.getLast? = some d) :
    (build_nwb env self).2 = .ok (env.buildResult d) := by
  have hl := build_nwb_loop_last env self.dates none d h
  simp [build_nwb, hl]

/-- C6 witness: with two dates and builds yielding content 5, `build_nwb`
returns the last date's content 5. -/
theorem build_nwb_returns_last_witness :
    (build_nwb ⟨fun _ => 5⟩
      { data_path := "dp", animal_name := "an", dates := ["a", "bc"] }).2 = .ok 5 :=
  build_nwb_returns_last ⟨fun _ => 5⟩
    { data_path := "dp", animal_name := "an", dates := ["a", "bc"] } "bc" rfl

/-- C7: with an empty dates list, `build_nwb` still runs preprocessing (and
nothing else), then fails at `return content` with UnboundLocalError, so no
content is returned. -/
theorem build_nwb_empty_dates (env : NWBEnv) (self : RawToNWBBuilder)
    (h : self.dates = []) :
    (build_nwb env self).1 = [BuildEvent.preprocess] ∧
    (build_nwb env self).2 = .error .unboundLocalError := by
  constructor <;> simp [build_nwb, build_nwb_loop, h]

/-- C7 witness: a concrete builder with no dates preprocesses and then fails
with UnboundLocalError. -/
theorem build_nwb_empty_dates_witness :
    (build_nwb ⟨fun _ => 0⟩
      { data_path := "dp", animal_name := "an", dates := [] }).1 = [BuildEvent.preprocess] ∧
    (build_nwb ⟨fun _ => 0⟩
      { data_path := "dp", animal_name := "an", dates := [] }).2 = .error .unboundLocalError :=
  build_nwb_empty_dates ⟨fun _ => 0⟩
    { data_path := "dp", animal_name := "an", dates := [] } rfl

/-- C8: with timestamp retrieval disabled, every record's timestamps field
is the empty array, and the result is the same over any two filesystems —
no file is accessed. -/
theorem extract_disabled_no_file_access
    (fs fs2 : FileSystem) (self : FlVideoFilesExtractor)
    (h : self.return_timestamps = false) :
    extract_video_files fs self =
      .ok (self.video_files_metadata.map fun vf =>
        { name := vf.name, timestamps := PyVal.arr [], device := vf.camera_id }) ∧
    extract_video_files fs self = extract_video_files fs2 self := by
  refine ⟨extract_loop_disabled fs self h _, ?_⟩
  rw [extract_video_files, extract_video_files,
    extract_loop_disabled fs self h, extract_loop_disabled fs2 self h]

/-- C8 witness: with retrieval off, the camA extractor yields one record
with empty timestamps, identically over the empty filesystem and one
holding the hardware-sync file. -/
theorem extract_disabled_no_file_access_witness :
    extract_video_files [] extractorCamAOff =
      .ok [{ name := "camA.mp4", timestamps := PyVal.arr [], device := 7 }] ∧
    extract_video_files [] extractorCamAOff = extract_video_files fsHWSync extractorCamAOff :=
  extract_disabled_no_file_access [] fsHWSync extractorCamAOff rfl

/-- C9: whenever `extract_video_files` succeeds, it yields one record per
metadata entry in input order, each carrying the entry's name and its
camera_id as the device. -/
theorem extract_preserves_order_and_fields
    (fs : FileSystem) (self : FlVideoFilesExtractor) (recs : List FlVideoFile)
    (h : extract_video_files fs self = .ok recs) :
    recs.map (fun r => (r.name, r.device)) =
      self.video_files_metadata.map fun vf => (vf.name, vf.camera_id) :=
  extract_loop_fields fs self self.video_files_metadata recs h

/-- C9 witness: a successful concrete extraction yields the input name and
camera id pairs in order. -/
theorem extract_preserves_order_and_fields_witness :
    ([{ name := "camA.mp4", timestamps := PyVal.arr [], device := 7 }] :
        List FlVideoFile).map (fun r => (r.name, r.device)) =
      ([{ name := "camA.mp4", camera_id := 7 }] : List VideoFileMeta).map
        (fun vf => (vf.name, vf.camera_id)) :=
  extract_preserves_order_and_fields [] extractorCamAOff
    [{ name := "camA.mp4", timestamps := PyVal.arr [], device := 7 }] rfl

/-- C10: `cleanup` never raises: it returns a filesystem that keeps exactly
the paths outside the preprocessing working directory's subtree when that
directory exists and everything when it does not, the directory is absent
afterwards, and a second call returns the same filesystem unchanged
(idempotence). -/
theorem cleanup_removes_and_idempotent (self : RawToNWBBuilder) (fsys : List String) :
    ∃ fsys2,
      cleanup self fsys = .ok fsys2 ∧
      (∀ f, f ∈ fsys2 ↔ f ∈ fsys ∧
        (os_path_exists (preprocessing_dir self) fsys = true →
          (f == preprocessing_dir self ||
            f.startsWith (preprocessing_dir self ++ "/")) = false)) ∧
      os_path_exists (preprocessing_dir self) fsys2 = false ∧
      cleanup self fsys2 = .ok fsys2 := by
  by_cases hex : os_path_exists (preprocessing_dir self) fsys = true
  · have hmem : preprocessing_dir self ∈ fsys := by
      simpa [os_path_exists, List.contains, List.elem_eq_mem] using hex
    have hnm : preprocessing_dir self ∉ fsys.filter fun f =>
        !(f == preprocessing_dir self || f.startsWith (preprocessing_dir self ++ "/")) := by
      intro hmem2
      have hp := List.of_mem_filter hmem2
      simp at hp
    refine ⟨fsys.filter fun f => !(f == preprocessing_dir self ||
      f.startsWith (preprocessing_dir self ++ "/")), ?_, ?_, ?_, ?_⟩
    · simp [cleanup, shutil_rmtree, os_path_exists, hmem]
    · intro f
      simp [List.mem_filter, hex]
    · simp [os_path_exists, List.contains, List.elem_eq_mem, hnm]
    · simp [cleanup, shutil_rmtree, os_path_exists, List.contains, List.elem_eq_mem, hnm]
  · have hex2 : os_path_exists (preprocessing_dir self) fsys = false := by
      simpa using hex
    refine ⟨fsys, ?_, ?_, hex2, ?_⟩
    · simp [cleanup, hex2]
    · intro f
      simp [hex2]
    · simp [cleanup, hex2]

end RecToNwb
